import Mathlib

/-
Verification of the few-shot dataset adapters (few_shot/datasets.py) and the
metrics wrappers (few_shot/metrics.py) via a shallow embedding in Lean 4.

Modelling conventions:
- Python strings are lists of characters (Str below); Python string
  comparison and the lexicographic order on List Char are both by code
  point, and the string operations the source uses (split on '/', suffix
  test, concatenation) are structural list functions.
- Fallible Python code is embedded as Except PyError.  The constructors of
  PyError name the exception classes the Python runtime actually raises.
  Note that the statement raise(ValueError, msg) in Python 3 raises the
  tuple (ValueError, msg) itself, which the runtime rejects with
  TypeError: exceptions must derive from BaseException; it is therefore
  embedded as PyError.typeError, not as a ValueError.
- The filesystem walked by os.walk is an explicit argument: a list of
  (root, files) entries, with the root directory path a string that is
  split on the slash character exactly as the source does.  os.walk on a
  nonexistent root yields no entries at all (it swallows the error), which
  is represented by the empty walk list.
- A CSV manifest read by pd.read_csv is an Option (List ManifestRow): none
  models a missing file (FileNotFoundError), some rows its parsed content.
- Image decoding (skimage.io.imread, PIL.Image.open) is a function from
  file path to Option of an integer pixel array; none models a missing
  file.
- The torchvision transform operations are library code outside this
  repository; they are modelled as an explicit record of (deterministic)
  functions, applied exactly as the source composes them.
- Python dicts with scalar keys are association lists looked up from the
  front; a missing key is PyError.keyError.
- numpy integer arithmetic on uint8 images never overflows in the one place
  it is used (x - min with min the global minimum), so pixel values are
  embedded as Int; true division is embedded over the rationals, with the
  value none standing for the non-finite float (NaN/inf) that numpy
  produces on division by zero.
-/

/-- Python string: a list of characters, compared lexicographically by code
point exactly as Python compares strings. -/
abbrev Str := List Char

inductive PyError where
  | typeError
  | keyError
  | indexError
  | valueError
  | fileNotFound
  | zeroDivision
  deriving DecidableEq, Repr

instance {ε α : Type} [DecidableEq ε] [DecidableEq α] : DecidableEq (Except ε α)
  | .error e, .error e' => decidable_of_iff (e = e') (by simp)
  | .error _, .ok _ => isFalse (by intro h; cases h)
  | .ok _, .error _ => isFalse (by intro h; cases h)
  | .ok a, .ok a' => decidable_of_iff (a = a') (by simp)

/-- Python dict built from distinct keys, looked up by equality from the
front (lookup order is irrelevant for dicts with distinct keys, which is
the only way dicts are built in this file). -/
def pyDictGet {α β : Type} [DecidableEq α] : List (α × β) → α → Option β
  | [], _ => none
  | (k, v) :: rest, key => if key = k then some v else pyDictGet rest key

/-- Embedding of a dict comprehension of the shape
x7b u[i]: i for i in range(len(u)) x7d, started at rank n. -/
def rank_dict : Nat → List Str → List (Str × Nat)
  | _, [] => []
  | n, c :: cs => (c, n) :: rank_dict (n + 1) cs

/-- Embedding of df.to_dict()[col]: a dict keyed by the dataframe index
0, 1, ..., len-1 (integer keys, so a negative key is simply absent). -/
def idx_dict {α : Type} : Int → List α → List (Int × α)
  | _, [] => []
  | n, a :: rest => (n, a) :: idx_dict (n + 1) rest

/-- Sequential evaluation of a fallible map, aborting at the first error
(the embedding of a loop of fallible statements over a list). -/
def exceptMap {α β : Type} (f : α → Except PyError β) : List α → Except PyError (List β)
  | [] => .ok []
  | a :: rest =>
    match f a with
    | .error e => .error e
    | .ok b =>
      match exceptMap f rest with
      | .error e => .error e
      | .ok bs => .ok (b :: bs)

/-- Embedding of Python str.split('/'): maximal runs between slashes, with
empty runs kept, never returning an empty list. -/
def split_slash : Str → List Str
  | [] => [[]]
  | c :: rest =>
    if c = '/' then [] :: split_slash rest
    else
      match split_slash rest with
      | [] => [[c]]
      | s :: ss => (c :: s) :: ss

/-- Embedding of Python str.endswith(suffix). -/
def ends_with (s suffix : Str) : Bool :=
  suffix.isSuffixOf s

/-- Embedding of os.path.join(root, f) for the paths produced by os.walk
(roots from os.walk carry no trailing slash except the top-level root,
which the source writes with one). -/
def pyJoin (root f : Str) : Str :=
  if ends_with root ['/'] then root ++ f else root ++ '/' :: f

/-- One entry yielded by os.walk: a directory (its path) and the plain
files directly inside it.  Subdirectory names are not used by the indexing
code and are omitted. -/
structure WalkEntry where
  root : Str
  files : List Str
  deriving DecidableEq, Repr

/-- Embedding of sorted(df[col].unique()): the distinct values in ascending
order.  pandas unique() returns the distinct values (in first-occurrence
order, immaterial under the subsequent sort, so the dedup orientation is
immaterial too) and sorted() sorts them. -/
def sorted_unique (names : List Str) : List Str :=
  (names.dedup).insertionSort (· ≤ ·)

/-- First pass of every directory-walk index builder: the tqdm progress
total, counting only files whose name ends with ".png". -/
def progress_total (walk : List WalkEntry) : Nat :=
  (walk.map (fun e => (e.files.filter (fun f => ends_with f ".png".data)).length)).sum

/-- Number of files in the walk whose name does not end with ".png". -/
def not_png_total (walk : List WalkEntry) : Nat :=
  (walk.map (fun e => (e.files.filter (fun f => ! ends_with f ".png".data)).length)).sum

/-! ## Numpy pieces used by OmniglotDataset.getitem -/

/-- Single-channel image as decoded by skimage.io.imread: rows of integer
pixel values. -/
abbrev GrayImage := List (List Int)

/-- Embedding of numpy arr.min(): fails on an empty array. -/
def np_min : List Int → Except PyError Int
  | [] => .error .valueError
  | x :: rest => .ok (rest.foldl min x)

/-- Embedding of numpy arr.max(): fails on an empty array. -/
def np_max : List Int → Except PyError Int
  | [] => .error .valueError
  | x :: rest => .ok (rest.foldl max x)

/-- Numpy true division of two integers: a finite rational unless the
denominator is zero, in which case numpy produces a non-finite float
(NaN for 0/0, inf otherwise), embedded as none. -/
def np_div (a b : Int) : Option ℚ :=
  if b = 0 then none else some ((a : ℚ) / (b : ℚ))

/-- Embedding of (instance - instance.min()) / (instance.max() - instance.min())
applied to the channels-first tensor instance.  The min and max reductions
range over every element of the tensor. -/
def minmax_rescale (t : List GrayImage) : Except PyError (List (List (List (Option ℚ)))) :=
  match np_min ((t.map (fun img => img.flatten)).flatten) with
  | .error e => .error e
  | .ok mn =>
    match np_max ((t.map (fun img => img.flatten)).flatten) with
    | .error e => .error e
    | .ok mx =>
      .ok (t.map (fun img => img.map (fun row => row.map (fun x => np_div (x - mn) (mx - mn)))))

/-! ## OmniglotDataset -/

/-- One element of the list returned by OmniglotDataset.index_subset, i.e.
one row of the dataframe. -/
structure ImageRecord where
  subset : Str
  alphabet : Str
  class_name : Str
  filepath : Str
  deriving DecidableEq, Repr

/-- The records contributed by one os.walk entry in the indexing pass of
OmniglotDataset.index_subset: directories with no files are skipped;
otherwise the alphabet is root.split('/')[-2] (an IndexError if the root
has fewer than two segments), the class name is alphabet + "." +
root.split('/')[-1] (the last segment always exists), and every file is
appended regardless of extension. -/
def OmniglotDataset.entry_records (subset : Str) (e : WalkEntry) :
    Except PyError (List ImageRecord) :=
  if e.files.length = 0 then .ok []
  else
    let parts := split_slash e.root
    match parts.dropLast.getLast? with
    | none => .error .indexError
    | some alphabet =>
      let class_name := alphabet ++ '.' :: parts.getLastD []
      .ok (e.files.map (fun f =>
        { subset := subset, alphabet := alphabet, class_name := class_name,
          filepath := pyJoin e.root f }))

/-- Indexing pass of OmniglotDataset.index_subset over the whole walk. -/
def OmniglotDataset.index_subset (subset : Str) :
    List WalkEntry → Except PyError (List ImageRecord)
  | [] => .ok []
  | e :: rest =>
    match OmniglotDataset.entry_records subset e with
    | .error err => .error err
    | .ok rs =>
      match OmniglotDataset.index_subset subset rest with
      | .error err => .error err
      | .ok rest_rs => .ok (rs ++ rest_rs)

/-- State of a constructed OmniglotDataset instance. -/
structure OmniglotDataset where
  subset : Str
  records : List ImageRecord
  unique_characters : List Str
  class_name_to_id : List (Str × Nat)
  class_ids : List Nat
  datasetid_to_filepath : List (Int × Str)
  datasetid_to_class_id : List (Int × Nat)
  deriving DecidableEq, Repr

/-- Embedding of OmniglotDataset.__init__.  The subset guard executes
raise(ValueError, msg), which raises a tuple: Python 3 rejects that with
TypeError.  When the walk produced no records, pd.DataFrame([]) has no
columns, so the access df['class_name'] raises KeyError.  The dict
comprehension ranges over range(self.num_classes()), which equals the
length of unique_characters since both count the distinct class names. -/
def OmniglotDataset.construct (subset : Str) (walk : List WalkEntry) :
    Except PyError OmniglotDataset :=
  if subset = "background".data ∨ subset = "evaluation".data then
    match OmniglotDataset.index_subset subset walk with
    | .error e => .error e
    | .ok records =>
      if records.length = 0 then .error PyError.keyError
      else
        let unique_characters := sorted_unique (records.map (fun r => r.class_name))
        let class_name_to_id := rank_dict 0 unique_characters
        match exceptMap (fun r =>
            match pyDictGet class_name_to_id r.class_name with
            | some i => Except.ok i
            | none => Except.error PyError.keyError) records with
        | .error e => .error e
        | .ok class_ids =>
          .ok { subset := subset
                records := records
                unique_characters := unique_characters
                class_name_to_id := class_name_to_id
                class_ids := class_ids
                datasetid_to_filepath := idx_dict 0 (records.map (fun r => r.filepath))
                datasetid_to_class_id := idx_dict 0 class_ids }
  else .error PyError.typeError

/-- Embedding of OmniglotDataset.__len__. -/
def OmniglotDataset.length (d : OmniglotDataset) : Nat := d.records.length

/-- Embedding of OmniglotDataset.num_classes. -/
def OmniglotDataset.num_classes (d : OmniglotDataset) : Nat :=
  ((d.records.map (fun r => r.class_name)).dedup).length

/-- Embedding of OmniglotDataset.__getitem__: dict lookup of the file path
(KeyError when absent), io.imread (fails when the file is missing), the
np.newaxis reshape to channels-first, min-max rescaling, then the dict
lookup of the class id. -/
def OmniglotDataset.getitem (fs : Str → Option GrayImage)
    (d : OmniglotDataset) (item : Int) :
    Except PyError (List (List (List (Option ℚ))) × Nat) :=
  match pyDictGet d.datasetid_to_filepath item with
  | none => .error PyError.keyError
  | some path =>
    match fs path with
    | none => .error PyError.fileNotFound
    | some img =>
      match minmax_rescale [img] with
      | .error e => .error e
      | .ok inst =>
        match pyDictGet d.datasetid_to_class_id item with
        | none => .error PyError.keyError
        | some label => .ok (inst, label)

/-- OmniglotDataset.__getitem__ with the dataset state threaded explicitly:
the method body reads self.datasetid_to_filepath and
self.datasetid_to_class_id and assigns only the local variables instance
and label, so the post-state equals the pre-state. -/
def OmniglotDataset.getitem_st (fs : Str → Option GrayImage)
    (d : OmniglotDataset) (item : Int) :
    (Except PyError (List (List (List (Option ℚ))) × Nat)) × OmniglotDataset :=
  (OmniglotDataset.getitem fs d item, d)

/-! ## DummyDataset -/

/-- Constructed state of DummyDataset: the three constructor parameters. -/
structure DummyDataset where
  samples_per_class : Nat
  n_classes : Nat
  n_features : Nat
  deriving DecidableEq, Repr

/-- Embedding of DummyDataset.__len__. -/
def DummyDataset.length (d : DummyDataset) : Nat :=
  d.samples_per_class * d.n_classes

/-- The class_id column of the dataframe built in DummyDataset.__init__. -/
def DummyDataset.df_class_id (d : DummyDataset) : List Nat :=
  (List.range (DummyDataset.length d)).map (fun i => i % d.n_classes)

/-- Embedding of DummyDataset.__getitem__: no bounds check of any kind; the
sample is [item] + [item % n_classes] * n_features as floats, the label is
float(item % n_classes).  Python % with a positive modulus returns a value
in [0, n_classes) also for a negative item, which is Int.emod; with
n_classes = 0 Python raises ZeroDivisionError. -/
def DummyDataset.getitem (d : DummyDataset) (item : Int) :
    Except PyError (List ℚ × ℚ) :=
  if d.n_classes = 0 then .error PyError.zeroDivision
  else
    let class_id : Int := item % (d.n_classes : Int)
    .ok ((item : ℚ) :: List.replicate d.n_features ((class_id : ℚ)), (class_id : ℚ))

/-! ## Metrics -/

/-- Embedding of torch.argmax over the last dimension for one row: the
index of the first maximal value (torch.argmax on an empty row errors; the
rows used by the accuracy metric are score vectors of positive length, and
the default 0 is never exercised in the theorems below). -/
def torch_argmax (l : List ℚ) : Nat :=
  match l with
  | [] => 0
  | x :: rest => List.indexOf (rest.foldl max x) (x :: rest)

/-- Embedding of categorical_accuracy(y, y_pred):
torch.eq(y_pred.argmax(dim=-1), y).sum().item() / y_pred.shape[0].
The elementwise equality of the argmax vector with y is a zip, its sum the
match count; division is rational (Python would raise ZeroDivisionError on
an empty batch, which the main theorem excludes by hypothesis). -/
def categorical_accuracy (y : List Nat) (y_pred : List (List ℚ)) : ℚ :=
  ((((y_pred.map torch_argmax).zip y).countP (fun p => p.1 == p.2) : ℚ)) / (y_pred.length : ℚ)

/-! ## Torchvision transform environment (library code, modelled as
deterministic functions) -/

/-- Image as returned by PIL.Image.open: rows of RGB integer triples. -/
abbrev PILImage := List (List (Int × Int × Int))

/-- Tensor as produced by transforms.ToTensor and consumed by
transforms.Normalize: channels of rows of rationals. -/
abbrev Tensor3Q := List (List (List ℚ))

/-- The torchvision operations used by the transform pipelines of the
source.  They live outside this repository; each is an arbitrary but fixed
(hence deterministic) function, applied exactly as the source composes
them. -/
structure TorchvisionOps where
  centerCrop224 : PILImage → PILImage
  resize84 : PILImage → PILImage
  resize86 : PILImage → PILImage
  grayscale3 : PILImage → PILImage
  toTensor : PILImage → Tensor3Q
  normalizeImagenet : Tensor3Q → Tensor3Q

/-- The transforms.Compose pipeline of MiniImageNet.__init__:
CenterCrop(224), Resize(84), ToTensor(), Normalize(mean, std). -/
def mini_pipeline (tv : TorchvisionOps) (img : PILImage) : Tensor3Q :=
  tv.normalizeImagenet (tv.toTensor (tv.resize84 (tv.centerCrop224 img)))

/-- The transforms.Compose pipeline of the Kamon-style datasets:
Resize((86, 86)), Grayscale(3), ToTensor(). -/
def kamon_pipeline (tv : TorchvisionOps) (img : PILImage) : Tensor3Q :=
  tv.toTensor (tv.grayscale3 (tv.resize86 img))

/-! ## MiniImageNet -/

/-- One row of the MiniImageNet dataframe (no alphabet column). -/
structure MiniRecord where
  subset : Str
  class_name : Str
  filepath : Str
  deriving DecidableEq, Repr

/-- The records contributed by one os.walk entry in the indexing pass of
MiniImageNet.index_subset: the class name is root.split('/')[-1], which
always exists, so this pass never fails. -/
def MiniImageNet.entry_records (subset : Str) (e : WalkEntry) : List MiniRecord :=
  if e.files.length = 0 then []
  else
    let class_name := (split_slash e.root).getLastD []
    e.files.map (fun f =>
      { subset := subset, class_name := class_name, filepath := pyJoin e.root f })

/-- Indexing pass of MiniImageNet.index_subset over the whole walk. -/
def MiniImageNet.index_subset (subset : Str) (walk : List WalkEntry) : List MiniRecord :=
  (walk.map (MiniImageNet.entry_records subset)).flatten

/-- State of a constructed MiniImageNet instance. -/
structure MiniImageNet where
  subset : Str
  records : List MiniRecord
  unique_characters : List Str
  class_name_to_id : List (Str × Nat)
  class_ids : List Nat
  datasetid_to_filepath : List (Int × Str)
  datasetid_to_class_id : List (Int × Nat)
  transform : PILImage → Tensor3Q

/-- Embedding of MiniImageNet.__init__ (same shape as the Omniglot
constructor, with the transform pipeline stored on the instance). -/
def MiniImageNet.construct (tv : TorchvisionOps) (subset : Str)
    (walk : List WalkEntry) : Except PyError MiniImageNet :=
  if subset = "background".data ∨ subset = "evaluation".data then
    let records := MiniImageNet.index_subset subset walk
    if records.length = 0 then .error PyError.keyError
    else
      let unique_characters := sorted_unique (records.map (fun r => r.class_name))
      let class_name_to_id := rank_dict 0 unique_characters
      match exceptMap (fun r =>
          match pyDictGet class_name_to_id r.class_name with
          | some i => Except.ok i
          | none => Except.error PyError.keyError) records with
      | .error e => .error e
      | .ok class_ids =>
        .ok { subset := subset
              records := records
              unique_characters := unique_characters
              class_name_to_id := class_name_to_id
              class_ids := class_ids
              datasetid_to_filepath := idx_dict 0 (records.map (fun r => r.filepath))
              datasetid_to_class_id := idx_dict 0 class_ids
              transform := mini_pipeline tv }
  else .error PyError.typeError

/-- Embedding of MiniImageNet.__len__. -/
def MiniImageNet.length (d : MiniImageNet) : Nat := d.records.length

/-- Embedding of MiniImageNet.num_classes. -/
def MiniImageNet.num_classes (d : MiniImageNet) : Nat :=
  ((d.records.map (fun r => r.class_name)).dedup).length

/-- Embedding of MiniImageNet.__getitem__: Image.open, the stored
transform, then the class-id lookup. -/
def MiniImageNet.getitem (fs : Str → Option PILImage)
    (d : MiniImageNet) (item : Int) : Except PyError (Tensor3Q × Nat) :=
  match pyDictGet d.datasetid_to_filepath item with
  | none => .error PyError.keyError
  | some path =>
    match fs path with
    | none => .error PyError.fileNotFound
    | some img =>
      let inst := d.transform img
      match pyDictGet d.datasetid_to_class_id item with
      | none => .error PyError.keyError
      | some label => .ok (inst, label)

/-- MiniImageNet.__getitem__ with the dataset state threaded explicitly:
the method body only reads self fields and assigns locals, so the
post-state equals the pre-state. -/
def MiniImageNet.getitem_st (fs : Str → Option PILImage)
    (d : MiniImageNet) (item : Int) :
    (Except PyError (Tensor3Q × Nat)) × MiniImageNet :=
  (MiniImageNet.getitem fs d item, d)

/-! ## ImageNetKamonDataset -/

/-- One parsed row of a two-column manifest CSV read with
pd.read_csv(path, names=['filepath', 'class_id']). -/
structure ManifestRow where
  filepath : Str
  class_id : Int
  deriving DecidableEq, Repr

/-- State of a constructed ImageNetKamonDataset instance.  The class_id
column is kept because num_classes reads df['class_id']. -/
structure ImageNetKamonDataset where
  subset : Str
  class_id_column : List Int
  datasetid_to_filepath : List (Int × Str)
  datasetid_to_class_id : List (Int × Int)
  transform : PILImage → Tensor3Q

/-- Indexing pass of ImageNetKamonDataset.index_subset, a verbatim
duplicate of the MiniImageNet one in the source. -/
def ImageNetKamonDataset.index_subset (subset : Str) (walk : List WalkEntry) :
    List MiniRecord :=
  (walk.map (fun e =>
    if e.files.length = 0 then []
    else
      let class_name := (split_slash e.root).getLastD []
      e.files.map (fun f =>
        { subset := subset, class_name := class_name,
          filepath := pyJoin e.root f : MiniRecord }))).flatten

/-- Embedding of ImageNetKamonDataset.__init__: the background branch walks
the miniImageNet directories and label-encodes class names; the evaluation
branch reads a manifest CSV and trusts its class_id column verbatim, with a
different transform pipeline; any other subset raises the tuple
(ValueError, msg), i.e. TypeError. -/
def ImageNetKamonDataset.construct (tv : TorchvisionOps) (subset : Str)
    (walk : List WalkEntry) (eval_csv : Option (List ManifestRow)) :
    Except PyError ImageNetKamonDataset :=
  if subset = "background".data then
    let records := ImageNetKamonDataset.index_subset subset walk
    if records.length = 0 then .error PyError.keyError
    else
      let unique_characters := sorted_unique (records.map (fun r => r.class_name))
      let class_name_to_id := rank_dict 0 unique_characters
      match exceptMap (fun r =>
          match pyDictGet class_name_to_id r.class_name with
          | some i => Except.ok i
          | none => Except.error PyError.keyError) records with
      | .error e => .error e
      | .ok class_ids =>
        .ok { subset := subset
              class_id_column := class_ids.map (fun i => (i : Int))
              datasetid_to_filepath := idx_dict 0 (records.map (fun r => r.filepath))
              datasetid_to_class_id := idx_dict 0 (class_ids.map (fun i => (i : Int)))
              transform := mini_pipeline tv }
  else if subset = "evaluation".data then
    match eval_csv with
    | none => .error PyError.fileNotFound
    | some rows =>
      .ok { subset := subset
            class_id_column := rows.map (fun r => r.class_id)
            datasetid_to_filepath := idx_dict 0 (rows.map (fun r => r.filepath))
            datasetid_to_class_id := idx_dict 0 (rows.map (fun r => r.class_id))
            transform := kamon_pipeline tv }
  else .error PyError.typeError

/-- Embedding of ImageNetKamonDataset.__len__. -/
def ImageNetKamonDataset.length (d : ImageNetKamonDataset) : Nat :=
  d.class_id_column.length

/-- Embedding of ImageNetKamonDataset.num_classes: the number of distinct
values of df['class_id'] (not of class names). -/
def ImageNetKamonDataset.num_classes (d : ImageNetKamonDataset) : Nat :=
  (d.class_id_column.dedup).length

/-- Embedding of ImageNetKamonDataset.__getitem__. -/
def ImageNetKamonDataset.getitem (fs : Str → Option PILImage)
    (d : ImageNetKamonDataset) (item : Int) : Except PyError (Tensor3Q × Int) :=
  match pyDictGet d.datasetid_to_filepath item with
  | none => .error PyError.keyError
  | some path =>
    match fs path with
    | none => .error PyError.fileNotFound
    | some img =>
      let inst := d.transform img
      match pyDictGet d.datasetid_to_class_id item with
      | none => .error PyError.keyError
      | some label => .ok (inst, label)

/-! ## KamonDataset and OldKamonDataset (manifest variants) -/

/-- State of a constructed KamonDataset instance. -/
structure KamonDataset where
  subset : Str
  datasetid_to_filepath : List (Int × Str)
  datasetid_to_class_id : List (Int × Int)
  transform : PILImage → Tensor3Q

/-- Embedding of KamonDataset.__init__: the subset selects which manifest
CSV is read (any other subset raises the tuple (ValueError, msg), i.e.
TypeError, before any file is touched); pd.read_csv on a missing manifest
raises FileNotFoundError. -/
def KamonDataset.construct (tv : TorchvisionOps)
    (train_csv eval_csv : Option (List ManifestRow)) (subset : Str) :
    Except PyError KamonDataset :=
  match (if subset = "background".data then Except.ok train_csv
    else if subset = "evaluation".data then Except.ok eval_csv
    else Except.error PyError.typeError) with
  | .error e => .error e
  | .ok csv =>
    match csv with
    | none => .error PyError.fileNotFound
    | some rows =>
      .ok { subset := subset
            datasetid_to_filepath := idx_dict 0 (rows.map (fun r => r.filepath))
            datasetid_to_class_id := idx_dict 0 (rows.map (fun r => r.class_id))
            transform := kamon_pipeline tv }

/-- Embedding of KamonDataset.__len__. -/
def KamonDataset.length (d : KamonDataset) : Nat := d.datasetid_to_class_id.length

/-- Embedding of KamonDataset.__getitem__. -/
def KamonDataset.getitem (fs : Str → Option PILImage)
    (d : KamonDataset) (item : Int) : Except PyError (Tensor3Q × Int) :=
  match pyDictGet d.datasetid_to_filepath item with
  | none => .error PyError.keyError
  | some path =>
    match fs path with
    | none => .error PyError.fileNotFound
    | some img =>
      let inst := d.transform img
      match pyDictGet d.datasetid_to_class_id item with
      | none => .error PyError.keyError
      | some label => .ok (inst, label)

/-- State of a constructed OldKamonDataset instance. -/
structure OldKamonDataset where
  subset : Str
  datasetid_to_filepath : List (Int × Str)
  datasetid_to_class_id : List (Int × Int)
  transform : PILImage → Tensor3Q

/-- Embedding of OldKamonDataset.__init__, a verbatim duplicate of
KamonDataset.__init__ in the source except for the manifest file names
(which are part of the manifest arguments here). -/
def OldKamonDataset.construct (tv : TorchvisionOps)
    (train_csv eval_csv : Option (List ManifestRow)) (subset : Str) :
    Except PyError OldKamonDataset :=
  match (if subset = "background".data then Except.ok train_csv
    else if subset = "evaluation".data then Except.ok eval_csv
    else Except.error PyError.typeError) with
  | .error e => .error e
  | .ok csv =>
    match csv with
    | none => .error PyError.fileNotFound
    | some rows =>
      .ok { subset := subset
            datasetid_to_filepath := idx_dict 0 (rows.map (fun r => r.filepath))
            datasetid_to_class_id := idx_dict 0 (rows.map (fun r => r.class_id))
            transform := kamon_pipeline tv }

/-! ## LogoDataset (embedded-blob variant) -/

/-- Contents of the HDF5 blob container, restricted to the side table the
constructor reads: the labels/resnet/rc_32 labelling scheme. -/
structure H5File where
  labels_rc32 : List Int
  deriving DecidableEq, Repr

/-- State of a constructed LogoDataset instance (the transform and the
data regions used only by its getitem are not needed by any claim and are
omitted). -/
structure LogoDataset where
  subset : Str
  datasetid_to_image_id : List (Int × Int)
  datasetid_to_class_id : List (Int × Int)
  deriving DecidableEq, Repr

/-- Embedding of LogoDataset.__init__.  Faithful to the source order: the
HDF5 file is opened BEFORE the subset guard, so a missing blob file fails
with the file error even for an invalid subset, and an invalid subset
touches the filesystem before raising.  The label of each image id in
[starting_index, ending_index) is read from the labels side table (an
index past its end is an out-of-range read). -/
def LogoDataset.construct (h5 : Option H5File) (subset : Str) :
    Except PyError LogoDataset :=
  match h5 with
  | none => .error PyError.fileNotFound
  | some f =>
    match (if subset = "background".data then Except.ok (0, 20000)
      else if subset = "evaluation".data then Except.ok (20000, 30000)
      else Except.error PyError.typeError : Except PyError (Nat × Nat)) with
    | .error e => .error e
    | .ok se =>
      match exceptMap (fun i =>
          match f.labels_rc32.get? (i + se.1) with
          | some c => Except.ok (((i + se.1 : Nat) : Int), c)
          | none => Except.error PyError.indexError)
          (List.range (se.2 - se.1)) with
      | .error e => .error e
      | .ok rows =>
        .ok { subset := subset
              datasetid_to_image_id := idx_dict 0 (rows.map (fun r => r.1))
              datasetid_to_class_id := idx_dict 0 (rows.map (fun r => r.2)) }

/-! ## Concrete fixtures used by witnesses and counterexamples -/

/-- A small Omniglot-style walk: two character directories of one alphabet,
three png files in total. -/
def walk0 : List WalkEntry :=
  [{ root := "data/Omniglot/images_background/Greek/char01".data,
     files := ["a.png".data, "b.png".data] },
   { root := "data/Omniglot/images_background/Greek/char02".data,
     files := ["c.png".data] }]

/-- A walk containing a file that does not match the .png extension. -/
def walk1 : List WalkEntry :=
  [{ root := "data/Omniglot/images_background/Greek/char01".data,
     files := ["a.png".data, "notes.txt".data] }]

/-- A filesystem in which every path decodes to the same 1 x 2 image. -/
def fs0 : Str → Option GrayImage := fun _ => some [[0, 1]]

/-- A filesystem in which every path decodes to the same RGB image. -/
def fsRGB0 : Str → Option PILImage := fun _ => some [[(0, 0, 0)]]

/-- Concrete torchvision operations for witnesses (any fixed functions
qualify; the theorems quantify over all of them). -/
def tv0 : TorchvisionOps :=
  { centerCrop224 := id, resize84 := id, resize86 := id, grayscale3 := id,
    toTensor := fun _ => [], normalizeImagenet := id }

/-- The OmniglotDataset instance constructed from walk0. -/
def d0 : OmniglotDataset :=
  match OmniglotDataset.construct "background".data walk0 with
  | .ok d => d
  | .error _ =>
    { subset := [], records := [], unique_characters := [],
      class_name_to_id := [], class_ids := [],
      datasetid_to_filepath := [], datasetid_to_class_id := [] }

/-- A manifest whose trusted class ids are not dense in [0, N). -/
def manifest0 : List ManifestRow :=
  [{ filepath := "a.png".data, class_id := 5 },
   { filepath := "b.png".data, class_id := 7 }]

/-- The ImageNetKamonDataset instance constructed from the evaluation
manifest manifest0. -/
def ink0 : ImageNetKamonDataset :=
  match ImageNetKamonDataset.construct tv0 "evaluation".data [] (some manifest0) with
  | .ok d => d
  | .error _ =>
    { subset := [], class_id_column := [], datasetid_to_filepath := [],
      datasetid_to_class_id := [], transform := fun _ => [] }

/-! ## Helper lemmas -/

theorem sorted_unique_perm_dedup (names : List Str) :
    (sorted_unique names).Perm names.dedup :=
  List.perm_insertionSort _ _

theorem sorted_unique_nodup (names : List Str) : (sorted_unique names).Nodup :=
  ((sorted_unique_perm_dedup names).nodup_iff).mpr (List.nodup_dedup names)

theorem mem_sorted_unique {names : List Str} {c : Str} :
    c ∈ sorted_unique names ↔ c ∈ names := by
  rw [(sorted_unique_perm_dedup names).mem_iff, List.mem_dedup]

theorem sorted_unique_length (names : List Str) :
    (sorted_unique names).length = names.dedup.length :=
  (sorted_unique_perm_dedup names).length_eq

theorem sorted_unique_sorted (names : List Str) :
    List.Sorted (· ≤ ·) (sorted_unique names) :=
  List.sorted_insertionSort _ _

theorem sorted_unique_toFinset (names : List Str) :
    (sorted_unique names).toFinset = names.toFinset := by
  ext c
  simp [List.mem_toFinset, mem_sorted_unique]

theorem sorted_unique_eq_of_toFinset {names names' : List Str}
    (h : names.toFinset = names'.toFinset) :
    sorted_unique names = sorted_unique names' := by
  apply List.eq_of_perm_of_sorted _ (sorted_unique_sorted names) (sorted_unique_sorted names')
  apply List.perm_of_nodup_nodup_toFinset_eq (sorted_unique_nodup names)
    (sorted_unique_nodup names')
  rw [sorted_unique_toFinset, sorted_unique_toFinset, h]

@[simp] theorem pyDictGet_nil {α β : Type} [DecidableEq α] (key : α) :
    pyDictGet ([] : List (α × β)) key = none := rfl

@[simp] theorem pyDictGet_cons {α β : Type} [DecidableEq α] (k : α) (v : β)
    (rest : List (α × β)) (key : α) :
    pyDictGet ((k, v) :: rest) key = if key = k then some v else pyDictGet rest key := rfl

@[simp] theorem rank_dict_nil (n : Nat) : rank_dict n [] = [] := rfl

@[simp] theorem rank_dict_cons (n : Nat) (c : Str) (cs : List Str) :
    rank_dict n (c :: cs) = (c, n) :: rank_dict (n + 1) cs := rfl

theorem pyDictGet_rank_dict_iff {u : List Str} (hu : u.Nodup) (n : Nat) (c : Str) (i : Nat) :
    pyDictGet (rank_dict n u) c = some i ↔ ∃ k, u[k]? = some c ∧ i = n + k := by
  induction u generalizing n with
  | nil => simp
  | cons a rest ih =>
    rw [List.nodup_cons] at hu
    by_cases hca : c = a
    · subst hca
      simp only [rank_dict_cons, pyDictGet_cons, if_pos rfl]
      constructor
      · intro h
        obtain rfl : n = i := by simpa using h
        exact ⟨0, by simp, by omega⟩
      · rintro ⟨k, hk, hik⟩
        cases k with
        | zero =>
          exact congrArg some (by omega)
        | succ j =>
          exfalso
          rw [List.getElem?_cons_succ] at hk
          obtain ⟨hlt, hget⟩ := List.getElem?_eq_some_iff.mp hk
          exact hu.1 (hget ▸ List.getElem_mem hlt)
    · simp only [rank_dict_cons, pyDictGet_cons, if_neg hca]
      rw [ih hu.2 (n + 1)]
      constructor
      · rintro ⟨k, hk, hik⟩
        exact ⟨k + 1, by simpa using hk, by omega⟩
      · rintro ⟨k, hk, hik⟩
        cases k with
        | zero =>
          rw [List.getElem?_cons_zero] at hk
          exact absurd (Option.some.inj hk).symm hca
        | succ j =>
          rw [List.getElem?_cons_succ] at hk
          exact ⟨j, hk, by omega⟩

theorem pyDictGet_rank_dict_lt {u : List Str} (hu : u.Nodup) {c : Str} {i : Nat}
    (h : pyDictGet (rank_dict 0 u) c = some i) : i < u.length := by
  obtain ⟨k, hk, hik⟩ := (pyDictGet_rank_dict_iff hu 0 c i).mp h
  obtain ⟨hlt, -⟩ := List.getElem?_eq_some_iff.mp hk
  omega

theorem pyDictGet_rank_dict_of_mem {u : List Str} (hu : u.Nodup) {c : Str}
    (hc : c ∈ u) : ∃ i, pyDictGet (rank_dict 0 u) c = some i ∧ i < u.length := by
  obtain ⟨k, hk⟩ := List.getElem_of_mem hc
  refine ⟨k, (pyDictGet_rank_dict_iff hu 0 c k).mpr ⟨k, ?_, by omega⟩, hk.1⟩
  exact List.getElem?_eq_some_iff.mpr ⟨hk.1, hk.2⟩

@[simp] theorem idx_dict_nil {α : Type} (n : Int) : idx_dict n ([] : List α) = [] := rfl

@[simp] theorem idx_dict_cons {α : Type} (n : Int) (a : α) (rest : List α) :
    idx_dict n (a :: rest) = (n, a) :: idx_dict (n + 1) rest := rfl

theorem pyDictGet_idx_dict_none {α : Type} (l : List α) (n k : Int)
    (h : k < n ∨ n + l.length ≤ k) : pyDictGet (idx_dict n l) k = none := by
  induction l generalizing n with
  | nil => simp
  | cons a rest ih =>
    simp only [idx_dict_cons, pyDictGet_cons]
    rw [if_neg (by simp at h ⊢; omega)]
    exact ih (n + 1) (by simp at h ⊢; omega)

theorem pyDictGet_idx_dict_mem {α : Type} {l : List α} {n k : Int} {v : α}
    (h : pyDictGet (idx_dict n l) k = some v) : v ∈ l := by
  induction l generalizing n with
  | nil => simp at h
  | cons a rest ih =>
    simp only [idx_dict_cons, pyDictGet_cons] at h
    by_cases hk : k = n
    · rw [if_pos hk] at h
      exact (Option.some.inj h) ▸ List.mem_cons_self a rest
    · rw [if_neg hk] at h
      exact List.mem_cons_of_mem a (ih h)

theorem exceptMap_ok_mem {α β : Type} {f : α → Except PyError β} {xs : List α}
    {ys : List β} (h : exceptMap f xs = .ok ys) :
    ∀ y ∈ ys, ∃ x ∈ xs, f x = .ok y := by
  induction xs generalizing ys with
  | nil =>
    simp only [exceptMap] at h
    obtain rfl := Except.ok.inj h
    simp
  | cons a rest ih =>
    simp only [exceptMap] at h
    cases hfa : f a with
    | error e => rw [hfa] at h; cases h
    | ok b =>
      rw [hfa] at h
      cases hrest : exceptMap f rest with
      | error e => rw [hrest] at h; cases h
      | ok bs =>
        rw [hrest] at h
        obtain rfl := Except.ok.inj h
        intro y hy
        rcases List.mem_cons.mp hy with rfl | hy'
        · exact ⟨a, List.mem_cons_self a rest, hfa⟩
        · obtain ⟨x, hx, hfx⟩ := ih hrest y hy'
          exact ⟨x, List.mem_cons_of_mem a hx, hfx⟩

theorem length_filter_add_length_not {α : Type} (p : α → Bool) (l : List α) :
    (l.filter p).length + (l.filter (fun a => ! p a)).length = l.length := by
  induction l with
  | nil => simp
  | cons a rest ih =>
    by_cases hp : p a
    · simp [List.filter_cons, hp]; omega
    · simp [List.filter_cons, hp]; omega

theorem foldl_min_le_init (l : List Int) (a : Int) : l.foldl min a ≤ a := by
  induction l generalizing a with
  | nil => simp
  | cons b rest ih =>
    calc (b :: rest).foldl min a = rest.foldl min (min a b) := rfl
    _ ≤ min a b := ih (min a b)
    _ ≤ a := min_le_left a b

theorem foldl_min_le_mem {l : List Int} {x : Int} (a : Int) (h : x ∈ l) :
    l.foldl min a ≤ x := by
  induction l generalizing a with
  | nil => simp at h
  | cons b rest ih =>
    rcases List.mem_cons.mp h with rfl | hx
    · calc (x :: rest).foldl min a = rest.foldl min (min a x) := rfl
      _ ≤ min a x := foldl_min_le_init rest (min a x)
      _ ≤ x := min_le_right a x
    · exact ih (min a b) hx

theorem le_foldl_max_init (l : List Int) (a : Int) : a ≤ l.foldl max a := by
  induction l generalizing a with
  | nil => simp
  | cons b rest ih =>
    calc a ≤ max a b := le_max_left a b
    _ ≤ rest.foldl max (max a b) := ih (max a b)
    _ = (b :: rest).foldl max a := rfl

theorem le_foldl_max_mem {l : List Int} {x : Int} (a : Int) (h : x ∈ l) :
    x ≤ l.foldl max a := by
  induction l generalizing a with
  | nil => simp at h
  | cons b rest ih =>
    rcases List.mem_cons.mp h with rfl | hx
    · calc x ≤ max a x := le_max_right a x
      _ ≤ rest.foldl max (max a x) := le_foldl_max_init rest (max a x)
      _ = (x :: rest).foldl max a := rfl
    · exact ih (max a b) hx

theorem np_min_le {l : List Int} {mn x : Int} (h : np_min l = .ok mn) (hx : x ∈ l) :
    mn ≤ x := by
  cases l with
  | nil => simp at hx
  | cons y rest =>
    obtain rfl := Except.ok.inj h
    rcases List.mem_cons.mp hx with rfl | hx'
    · exact foldl_min_le_init rest x
    · exact foldl_min_le_mem y hx'

theorem np_max_ge {l : List Int} {mx x : Int} (h : np_max l = .ok mx) (hx : x ∈ l) :
    x ≤ mx := by
  cases l with
  | nil => simp at hx
  | cons y rest =>
    obtain rfl := Except.ok.inj h
    rcases List.mem_cons.mp hx with rfl | hx'
    · exact le_foldl_max_init rest x
    · exact le_foldl_max_mem y hx'

theorem omniglot_entry_records_length {subset : Str} {e : WalkEntry}
    {rs : List ImageRecord} (h : OmniglotDataset.entry_records subset e = .ok rs) :
    rs.length = e.files.length := by
  unfold OmniglotDataset.entry_records at h
  split at h
  · next hlen =>
    obtain rfl := Except.ok.inj h
    simp [hlen]
  · dsimp only at h
    split at h
    · cases h
    · obtain rfl := Except.ok.inj h
      simp

theorem omniglot_entry_records_mem {subset : Str} {e : WalkEntry}
    {rs : List ImageRecord} (h : OmniglotDataset.entry_records subset e = .ok rs)
    {f : Str} (hf : f ∈ e.files) : ∃ r ∈ rs, r.filepath = pyJoin e.root f := by
  unfold OmniglotDataset.entry_records at h
  split at h
  · next hlen =>
    rw [List.length_eq_zero.mp hlen] at hf
    cases hf
  · dsimp only at h
    split at h
    · cases h
    · obtain rfl := Except.ok.inj h
      exact ⟨_, List.mem_map_of_mem _ hf, rfl⟩

theorem omniglot_index_subset_length {subset : Str} {walk : List WalkEntry}
    {recs : List ImageRecord}
    (h : OmniglotDataset.index_subset subset walk = .ok recs) :
    recs.length = progress_total walk + not_png_total walk := by
  induction walk generalizing recs with
  | nil =>
    obtain rfl := Except.ok.inj h
    simp [progress_total, not_png_total]
  | cons e rest ih =>
    unfold OmniglotDataset.index_subset at h
    split at h
    · cases h
    · next rs hre =>
      split at h
      · cases h
      · next rest_rs hrest =>
        obtain rfl := Except.ok.inj h
        have h1 := omniglot_entry_records_length hre
        have h2 := ih hrest
        have h3 := length_filter_add_length_not (fun f => ends_with f ".png".data) e.files
        simp only [List.length_append, progress_total, not_png_total, List.map_cons,
          List.sum_cons] at *
        omega

theorem omniglot_index_subset_mem {subset : Str} {walk : List WalkEntry}
    {recs : List ImageRecord}
    (h : OmniglotDataset.index_subset subset walk = .ok recs)
    {e : WalkEntry} (he : e ∈ walk) {f : Str} (hf : f ∈ e.files) :
    ∃ r ∈ recs, r.filepath = pyJoin e.root f := by
  induction walk generalizing recs with
  | nil => cases he
  | cons e' rest ih =>
    unfold OmniglotDataset.index_subset at h
    split at h
    · cases h
    · next rs hre =>
      split at h
      · cases h
      · next rest_rs hrest =>
        obtain rfl := Except.ok.inj h
        rcases List.mem_cons.mp he with rfl | he'
        · obtain ⟨r, hr, hrf⟩ := omniglot_entry_records_mem hre hf
          exact ⟨r, List.mem_append_left _ hr, hrf⟩
        · obtain ⟨r, hr, hrf⟩ := ih hrest he'
          exact ⟨r, List.mem_append_right _ hr, hrf⟩

theorem mini_entry_records_length (subset : Str) (e : WalkEntry) :
    (MiniImageNet.entry_records subset e).length =
      (e.files.filter (fun f => ends_with f ".png".data)).length +
      (e.files.filter (fun f => ! ends_with f ".png".data)).length := by
  rw [length_filter_add_length_not]
  unfold MiniImageNet.entry_records
  split
  · next hlen => simp [hlen]
  · simp

theorem mini_index_subset_length (subset : Str) (walk : List WalkEntry) :
    (MiniImageNet.index_subset subset walk).length =
      progress_total walk + not_png_total walk := by
  induction walk with
  | nil => rfl
  | cons e rest ih =>
    have hsplit : MiniImageNet.index_subset subset (e :: rest) =
        MiniImageNet.entry_records subset e ++ MiniImageNet.index_subset subset rest := rfl
    have hp : progress_total (e :: rest) =
        (e.files.filter (fun f => ends_with f ".png".data)).length + progress_total rest := rfl
    have hn : not_png_total (e :: rest) =
        (e.files.filter (fun f => ! ends_with f ".png".data)).length + not_png_total rest := rfl
    rw [hsplit, List.length_append, hp, hn, ih, mini_entry_records_length]
    omega

theorem omniglot_construct_ok {s : Str} {walk : List WalkEntry} {d : OmniglotDataset}
    (h : OmniglotDataset.construct s walk = .ok d) :
    ∃ records class_ids,
      OmniglotDataset.index_subset s walk = .ok records ∧
      records.length ≠ 0 ∧
      exceptMap (fun r =>
          match pyDictGet
              (rank_dict 0 (sorted_unique (records.map (fun r => r.class_name))))
              r.class_name with
          | some i => Except.ok i
          | none => Except.error PyError.keyError) records = .ok class_ids ∧
      d.records = records ∧
      d.unique_characters = sorted_unique (records.map (fun r => r.class_name)) ∧
      d.class_name_to_id =
        rank_dict 0 (sorted_unique (records.map (fun r => r.class_name))) ∧
      d.class_ids = class_ids ∧
      d.datasetid_to_filepath = idx_dict 0 (records.map (fun r => r.filepath)) ∧
      d.datasetid_to_class_id = idx_dict 0 class_ids := by
  unfold OmniglotDataset.construct at h
  split at h
  · split at h
    · cases h
    · next records hidx =>
      split at h
      · cases h
      · next hlen =>
        dsimp only at h
        split at h
        · cases h
        · next class_ids hmap =>
          obtain rfl := Except.ok.inj h
          exact ⟨records, class_ids, hidx, hlen, hmap, rfl, rfl, rfl, rfl, rfl, rfl⟩
  · cases h

theorem omniglot_getitem_ok_label {fs : Str → Option GrayImage}
    {d : OmniglotDataset} {item : Int} {sample : List (List (List (Option ℚ)))}
    {l : Nat} (h : OmniglotDataset.getitem fs d item = .ok (sample, l)) :
    pyDictGet d.datasetid_to_class_id item = some l := by
  unfold OmniglotDataset.getitem at h
  split at h
  · cases h
  · split at h
    · cases h
    · split at h
      · cases h
      · split at h
        · cases h
        · next label hlabel =>
          obtain ⟨-, rfl⟩ := Prod.mk.injEq .. ▸ Except.ok.inj h
          exact hlabel

theorem countP_zip_eq_range (y : List Nat) (yp : List (List ℚ))
    (h : y.length = yp.length) :
    ((yp.map torch_argmax).zip y).countP (fun p => p.1 == p.2) =
      (List.range yp.length).countP
        (fun i => torch_argmax (yp.getD i []) == y.getD i 0) := by
  induction yp generalizing y with
  | nil =>
    have : y = [] := List.length_eq_zero.mp (by simpa using h)
    subst this
    rfl
  | cons a yps ih =>
    cases y with
    | nil => simp at h
    | cons b ys =>
      have hlen : ys.length = yps.length := by simpa using h
      have hsucc :
          ((fun i => torch_argmax ((a :: yps).getD i []) == (b :: ys).getD i 0) ∘ Nat.succ)
            = (fun i => torch_argmax (yps.getD i []) == ys.getD i 0) := by
        funext i
        simp [List.getD_cons_succ]
      calc ((List.map torch_argmax (a :: yps)).zip (b :: ys)).countP (fun p => p.1 == p.2)
          = (((List.map torch_argmax yps).zip ys).countP (fun p => p.1 == p.2)) +
              (if torch_argmax a == b then 1 else 0) := by
            simp [List.countP_cons]
        _ = ((List.range yps.length).countP
              (fun i => torch_argmax (yps.getD i []) == ys.getD i 0)) +
              (if torch_argmax a == b then 1 else 0) := by rw [ih ys hlen]
        _ = (List.range (a :: yps).length).countP
              (fun i => torch_argmax ((a :: yps).getD i []) == (b :: ys).getD i 0) := by
            rw [List.length_cons, List.range_succ_eq_map, List.countP_cons,
              List.countP_map, hsucc]
            simp [List.getD_cons_zero]

/-! ## Claim theorems -/

/-- C1: evaluating every dataset constructor at the invalid subset "train".
Each variant fails before reading any index data, but with TypeError (the
guard executes raise(ValueError, msg), which raises the tuple itself and is
rejected by Python 3), not the intended ValueError/ConfigurationError; for
the five non-blob variants the result is the same for every filesystem and
manifest state, showing no filesystem access precedes the failure, while
the blob variant (LogoDataset) opens its backing file before the subset
check: with the file present it raises TypeError, with the file missing it
raises the file error even though the subset is invalid. -/
theorem claim_C1_code_eval :
    (∀ walk, OmniglotDataset.construct "train".data walk = .error PyError.typeError) ∧
    (∀ tv walk, MiniImageNet.construct tv "train".data walk = .error PyError.typeError) ∧
    (∀ tv walk csv,
      ImageNetKamonDataset.construct tv "train".data walk csv = .error PyError.typeError) ∧
    (∀ tv a b, KamonDataset.construct tv a b "train".data = .error PyError.typeError) ∧
    (∀ tv a b, OldKamonDataset.construct tv a b "train".data = .error PyError.typeError) ∧
    (∀ f, LogoDataset.construct (some f) "train".data = .error PyError.typeError) ∧
    (LogoDataset.construct none "train".data = .error PyError.fileNotFound) :=
  ⟨fun _ => rfl, fun _ _ => rfl, fun _ _ _ => rfl, fun _ _ _ => rfl, fun _ _ _ => rfl,
   fun _ => rfl, rfl⟩

/-- C2 counterexample: DummyDataset performs no bounds check, so on the
default-sized instance (samples_per_class 10, n_classes 10, n_features 1)
both get(length()) = get(100) and get(-1) return a value instead of
failing, refuting the claim that every constructed dataset rejects
out-of-range indices. -/
theorem claim_C2_counterexample :
    DummyDataset.length ⟨10, 10, 1⟩ = 100 ∧
    (DummyDataset.getitem ⟨10, 10, 1⟩ 100).isOk = true ∧
    (DummyDataset.getitem ⟨10, 10, 1⟩ (-1)).isOk = true :=
  ⟨rfl, rfl, rfl⟩

/-- C2 amended: for the dict-backed datasets (OmniglotDataset shown here,
whose getitem resolves the index through the id-to-filepath dict built at
construction) get(length()) and get(-1) fail with the KeyError-kind lookup
error; DummyDataset, by contrast, performs no bounds check and returns a
value for every integer index whenever n_classes is positive. -/
theorem claim_C2_amended :
    (∀ s walk d fs, OmniglotDataset.construct s walk = .ok d →
      OmniglotDataset.getitem fs d ((OmniglotDataset.length d : Nat) : Int)
        = .error PyError.keyError ∧
      OmniglotDataset.getitem fs d (-1) = .error PyError.keyError) ∧
    (∀ dd : DummyDataset, 0 < dd.n_classes → ∀ item : Int,
      ∃ v, DummyDataset.getitem dd item = .ok v) := by
  constructor
  · intro s walk d fs h
    obtain ⟨records, class_ids, hidx, hlen, hmap, hrec, -, -, -, hfp, -⟩ :=
      omniglot_construct_ok h
    have hlen_eq : OmniglotDataset.length d = records.length := by
      rw [OmniglotDataset.length, hrec]
    have hnone1 : pyDictGet d.datasetid_to_filepath
        ((OmniglotDataset.length d : Nat) : Int) = none := by
      rw [hfp]
      apply pyDictGet_idx_dict_none
      right
      rw [List.length_map, hlen_eq]
      omega
    have hnone2 : pyDictGet d.datasetid_to_filepath (-1) = none := by
      rw [hfp]
      apply pyDictGet_idx_dict_none
      left
      omega
    constructor
    · unfold OmniglotDataset.getitem
      rw [hnone1]
    · unfold OmniglotDataset.getitem
      rw [hnone2]
  · intro dd hdd item
    refine ⟨((item : ℚ) :: List.replicate dd.n_features ((((item % (dd.n_classes : Int)) : Int) : ℚ)),
      ((item % (dd.n_classes : Int) : Int) : ℚ)), ?_⟩
    unfold DummyDataset.getitem
    rw [if_neg (by omega)]

/-- C2 witness: the amended theorem applied to the concrete dataset built
from walk0 (three records) and to the default DummyDataset at index 100. -/
theorem claim_C2_witness :
    (OmniglotDataset.getitem fs0 d0 ((OmniglotDataset.length d0 : Nat) : Int)
      = .error PyError.keyError ∧
     OmniglotDataset.getitem fs0 d0 (-1) = .error PyError.keyError) ∧
    (∃ v, DummyDataset.getitem ⟨10, 10, 1⟩ 100 = .ok v) :=
  ⟨claim_C2_amended.1 "background".data walk0 d0 fs0 (by decide),
   claim_C2_amended.2 ⟨10, 10, 1⟩ (by decide) 100⟩

/-- C3: the label encoder x7b u[i]: i x7d over u = sorted(unique(names)) is
exactly rank-in-sorted-order (first conjunct), total on the observed names,
injective, surjective onto [0, N), with N the number of distinct observed
identifiers, and depends only on the set of observed names (so rebuilding
from unchanged source data, or any reordering of it, yields the identical
mapping). -/
theorem claim_C3 (names : List Str) :
    (∀ c i, pyDictGet (rank_dict 0 (sorted_unique names)) c = some i ↔
        (sorted_unique names)[i]? = some c) ∧
    (∀ c, c ∈ names → ∃ i, pyDictGet (rank_dict 0 (sorted_unique names)) c = some i ∧
        i < (sorted_unique names).length) ∧
    (∀ c c' i, pyDictGet (rank_dict 0 (sorted_unique names)) c = some i →
        pyDictGet (rank_dict 0 (sorted_unique names)) c' = some i → c = c') ∧
    (∀ i, i < (sorted_unique names).length →
        ∃ c, c ∈ names ∧ pyDictGet (rank_dict 0 (sorted_unique names)) c = some i) ∧
    ((sorted_unique names).length = names.dedup.length) ∧
    (∀ names', names.toFinset = names'.toFinset →
        rank_dict 0 (sorted_unique names) = rank_dict 0 (sorted_unique names')) := by
  have hu := sorted_unique_nodup names
  have hiff : ∀ c i, pyDictGet (rank_dict 0 (sorted_unique names)) c = some i ↔
      (sorted_unique names)[i]? = some c := by
    intro c i
    rw [pyDictGet_rank_dict_iff hu 0 c i]
    constructor
    · rintro ⟨k, hk, hik⟩
      obtain rfl : k = i := by omega
      exact hk
    · intro hget
      exact ⟨i, hget, by omega⟩
  refine ⟨hiff, ?_, ?_, ?_, sorted_unique_length names, ?_⟩
  · intro c hc
    exact pyDictGet_rank_dict_of_mem hu (mem_sorted_unique.mpr hc)
  · intro c c' i h1 h2
    rw [hiff c i] at h1
    rw [hiff c' i] at h2
    rw [h1] at h2
    exact Option.some.inj h2
  · intro i hi
    refine ⟨(sorted_unique names)[i], mem_sorted_unique.mp (List.getElem_mem hi), ?_⟩
    rw [hiff]
    exact List.getElem?_eq_some_iff.mpr ⟨hi, rfl⟩
  · intro names' hset
    rw [sorted_unique_eq_of_toFinset hset]

/-- C3 witness: the encoder built from the observed names ["b", "a"] maps
the observed name "a" somewhere below N, has a preimage of rank 1, and is
unchanged when rebuilt from the reordered multiset ["a", "b", "a"] with the
same underlying set. -/
theorem claim_C3_witness :
    (∃ i, pyDictGet (rank_dict 0 (sorted_unique ["b".data, "a".data])) "a".data = some i ∧
        i < (sorted_unique ["b".data, "a".data]).length) ∧
    (∃ c, c ∈ ["b".data, "a".data] ∧
        pyDictGet (rank_dict 0 (sorted_unique ["b".data, "a".data])) c = some 1) ∧
    rank_dict 0 (sorted_unique ["b".data, "a".data]) =
      rank_dict 0 (sorted_unique ["a".data, "b".data, "a".data]) := by
  obtain ⟨-, h2, -, h4, -, h6⟩ := claim_C3 ["b".data, "a".data]
  exact ⟨h2 "a".data (by decide), h4 1 (by decide),
    h6 ["a".data, "b".data, "a".data] (by decide)⟩

/-- C4 counterexample: the ImageNetKamonDataset evaluation branch trusts
manifest class ids verbatim: for the manifest with ids x7b 5, 7 x7d,
num_classes() is 2 (the number of distinct observed identifiers) but
get(0) returns the class id 5, which does not lie in [0, 2), refuting the
claim for that dataset variant. -/
theorem claim_C4_counterexample :
    ImageNetKamonDataset.num_classes ink0 = 2 ∧
    (ImageNetKamonDataset.getitem fsRGB0 ink0 0).map Prod.snd = .ok 5 ∧
    ¬ ((5 : Int) < (ImageNetKamonDataset.num_classes ink0 : Int)) := by
  refine ⟨rfl, rfl, ?_⟩
  have h2 : ImageNetKamonDataset.num_classes ink0 = 2 := rfl
  rw [h2]
  decide

/-- C4 amended: for the datasets that build the label encoder themselves
(OmniglotDataset shown here), num_classes() equals the number of distinct
class identifiers observed during indexing, and every class id returned by
a successful get lies below num_classes(); the manifest-trusting
evaluation branch of ImageNetKamonDataset does not have this property. -/
theorem claim_C4_amended :
    ∀ s walk d, OmniglotDataset.construct s walk = .ok d →
      (∀ recs, OmniglotDataset.index_subset s walk = .ok recs →
        OmniglotDataset.num_classes d =
          ((recs.map (fun r => r.class_name)).dedup).length) ∧
      (∀ fs item sample l, OmniglotDataset.getitem fs d item = .ok (sample, l) →
        l < OmniglotDataset.num_classes d) := by
  intro s walk d h
  obtain ⟨records, class_ids, hidx, hlen, hmap, hrec, -, -, -, -, hcdict⟩ :=
    omniglot_construct_ok h
  have hnum : OmniglotDataset.num_classes d =
      (sorted_unique (records.map (fun r => r.class_name))).length := by
    rw [OmniglotDataset.num_classes, hrec, sorted_unique_length]
  constructor
  · intro recs hrecs
    rw [hidx] at hrecs
    obtain rfl := Except.ok.inj hrecs
    rw [OmniglotDataset.num_classes, hrec]
  · intro fs item sample l hget
    have hl := omniglot_getitem_ok_label hget
    rw [hcdict] at hl
    have hmem : l ∈ class_ids := pyDictGet_idx_dict_mem hl
    obtain ⟨r, -, hfr⟩ := exceptMap_ok_mem hmap l hmem
    cases hpd : pyDictGet
        (rank_dict 0 (sorted_unique (records.map (fun r => r.class_name))))
        r.class_name with
    | none => rw [hpd] at hfr; cases hfr
    | some i =>
      rw [hpd] at hfr
      obtain rfl := Except.ok.inj hfr
      rw [hnum]
      exact pyDictGet_rank_dict_lt (sorted_unique_nodup _) hpd

/-- C4 witness: the amended theorem applied to the dataset built from
walk0: the class id returned by get(0) (namely 0) is below num_classes. -/
theorem claim_C4_witness : 0 < OmniglotDataset.num_classes d0 :=
  (claim_C4_amended "background".data walk0 d0 (by decide)).2 fs0 0
    [[[np_div (0 - 0) (1 - 0), np_div (1 - 0) (1 - 0)]]] 0 rfl

/-- C5 counterexample: a missing root path makes os.walk yield nothing, so
the Omniglot constructor builds an empty dataframe and fails at the
df['class_name'] access with the KeyError kind, not the NotFoundError
(missing-file) kind the claim requires for the directory-walk variants. -/
theorem claim_C5_counterexample :
    OmniglotDataset.construct "background".data [] = .error PyError.keyError ∧
    PyError.keyError ≠ PyError.fileNotFound :=
  ⟨rfl, by decide⟩

/-- C5 amended: construction with a missing data source always aborts with
an error and never yields a partial dataset, but the error kind differs by
variant: the manifest variants (KamonDataset, OldKamonDataset, the
ImageNetKamonDataset evaluation branch) and the blob variant (LogoDataset)
fail with the NotFoundError kind, while the directory-walk variants
(OmniglotDataset, MiniImageNet, the ImageNetKamonDataset background
branch), whose os.walk silently yields nothing for a missing root, fail
with a KeyError-kind missing-column error. -/
theorem claim_C5_amended :
    (∀ s, s = "background".data ∨ s = "evaluation".data →
      OmniglotDataset.construct s [] = .error PyError.keyError) ∧
    (∀ tv s, s = "background".data ∨ s = "evaluation".data →
      MiniImageNet.construct tv s [] = .error PyError.keyError) ∧
    (∀ tv csv, ImageNetKamonDataset.construct tv "background".data [] csv
      = .error PyError.keyError) ∧
    (∀ tv walk, ImageNetKamonDataset.construct tv "evaluation".data walk none
      = .error PyError.fileNotFound) ∧
    (∀ tv s, s = "background".data ∨ s = "evaluation".data →
      KamonDataset.construct tv none none s = .error PyError.fileNotFound) ∧
    (∀ tv s, s = "background".data ∨ s = "evaluation".data →
      OldKamonDataset.construct tv none none s = .error PyError.fileNotFound) ∧
    (∀ s, s = "background".data ∨ s = "evaluation".data →
      LogoDataset.construct none s = .error PyError.fileNotFound) := by
  refine ⟨?_, ?_, fun tv csv => rfl, fun tv walk => rfl, ?_, ?_, ?_⟩ <;>
    first
      | (intro s hs; rcases hs with rfl | rfl <;> rfl)
      | (intro tv s hs; rcases hs with rfl | rfl <;> rfl)

/-- C5 witness: the amended theorem applied at concrete subsets for the
directory-walk and the manifest variants. -/
theorem claim_C5_witness :
    OmniglotDataset.construct "background".data [] = .error PyError.keyError ∧
    KamonDataset.construct tv0 none none "evaluation".data
      = .error PyError.fileNotFound ∧
    LogoDataset.construct none "background".data = .error PyError.fileNotFound :=
  ⟨claim_C5_amended.1 "background".data (Or.inl rfl),
   claim_C5_amended.2.2.2.2.1 tv0 "evaluation".data (Or.inr rfl),
   claim_C5_amended.2.2.2.2.2.2 "background".data (Or.inl rfl)⟩

/-- C6 counterexample: the constant (one-pixel) image [[5]] decodes, but
its min and max coincide, so the rescale denominator 5 - 5 is zero and
numpy produces NaN for every output entry (embedded as none, which is no
rational value at all, in particular not one in [0, 1]), refuting the
claim that the denominator is never zero for decodable images. -/
theorem claim_C6_counterexample :
    minmax_rescale [[[5]]] = .ok [[[none]]] ∧
    np_div ((5 : Int) - 5) ((5 : Int) - 5) = none ∧
    (∀ q : ℚ, (none : Option ℚ) ≠ some q) :=
  ⟨rfl, rfl, fun q h => by cases h⟩

/-- C6 amended: for every decodable single-channel image with at least two
distinct pixel values (min < max), the min-max rescale is defined
everywhere and every output value is a rational in [0, 1]; constant images
instead hit a zero denominator. -/
theorem claim_C6_amended (img : GrayImage) (mn mx : Int)
    (hmn : np_min img.flatten = .ok mn) (hmx : np_max img.flatten = .ok mx)
    (hlt : mn < mx) :
    ∃ out, minmax_rescale [img] = .ok out ∧
      ∀ plane ∈ out, ∀ row ∈ plane, ∀ v ∈ row,
        ∃ q : ℚ, v = some q ∧ 0 ≤ q ∧ q ≤ 1 := by
  have hflat : ((([img] : List GrayImage).map (fun i => i.flatten)).flatten)
      = img.flatten := by simp
  refine ⟨[img.map (fun row => row.map (fun x => np_div (x - mn) (mx - mn)))], ?_, ?_⟩
  · unfold minmax_rescale
    rw [hflat, hmn, hmx]
    rfl
  · intro plane hplane row hrow v hv
    obtain rfl : plane = img.map (fun row => row.map (fun x => np_div (x - mn) (mx - mn))) := by
      simpa using hplane
    obtain ⟨row0, hrow0, rfl⟩ := List.mem_map.mp hrow
    obtain ⟨x, hx, rfl⟩ := List.mem_map.mp hv
    have hxflat : x ∈ img.flatten := List.mem_flatten.mpr ⟨row0, hrow0, hx⟩
    have h1 : mn ≤ x := np_min_le hmn hxflat
    have h2 : x ≤ mx := np_max_ge hmx hxflat
    have hden : mx - mn ≠ 0 := by omega
    refine ⟨((x - mn : Int) : ℚ) / ((mx - mn : Int) : ℚ), ?_, ?_, ?_⟩
    · unfold np_div
      rw [if_neg hden]
    · apply div_nonneg
      · exact_mod_cast Int.sub_nonneg.mpr h1
      · exact_mod_cast Int.sub_nonneg.mpr (le_of_lt hlt)
    · rw [div_le_one (by exact_mod_cast Int.sub_pos.mpr hlt)]
      exact_mod_cast Int.sub_le_sub_right h2 mn

/-- C6 witness: the amended theorem applied to the 2 x 2 image with pixel
values x7b 0, 2, 1, 1 x7d, whose min 0 and max 2 differ. -/
theorem claim_C6_witness :
    ∃ out, minmax_rescale [[[0, 2], [1, 1]]] = .ok out ∧
      ∀ plane ∈ out, ∀ row ∈ plane, ∀ v ∈ row,
        ∃ q : ℚ, v = some q ∧ 0 ≤ q ∧ q ≤ 1 :=
  claim_C6_amended [[0, 2], [1, 1]] 0 2 rfl rfl (by decide)

/-- C7: getitem is deterministic and mutates no dataset state: with the
dataset state threaded explicitly, the state after a call equals the state
before, and a second call on the post-state returns the identical result
(for any fixed decode results and, for MiniImageNet, any fixed transform
functions; the pipelines the source installs contain no random op). -/
theorem claim_C7 :
    (∀ (fs : Str → Option GrayImage) (d : OmniglotDataset) (item : Int),
      (OmniglotDataset.getitem_st fs d item).2 = d ∧
      (OmniglotDataset.getitem_st fs ((OmniglotDataset.getitem_st fs d item).2) item).1
        = (OmniglotDataset.getitem_st fs d item).1) ∧
    (∀ (fs : Str → Option PILImage) (d : MiniImageNet) (item : Int),
      (MiniImageNet.getitem_st fs d item).2 = d ∧
      (MiniImageNet.getitem_st fs ((MiniImageNet.getitem_st fs d item).2) item).1
        = (MiniImageNet.getitem_st fs d item).1) :=
  ⟨fun _ _ _ => ⟨rfl, rfl⟩, fun _ _ _ => ⟨rfl, rfl⟩⟩

/-- C8: in the directory-walk index builders the progress-count pass counts
only files ending in ".png" while the indexing pass appends every file of
every non-empty directory; hence the index length always equals the
progress total plus the number of non-matching files, the index strictly
exceeds the progress total whenever a non-matching file exists, and every
file of every walked directory (matching or not) contributes a record with
its joined path. -/
theorem claim_C8 :
    (∀ subset walk recs, OmniglotDataset.index_subset subset walk = .ok recs →
      recs.length = progress_total walk + not_png_total walk ∧
      (0 < not_png_total walk → progress_total walk < recs.length) ∧
      (∀ e ∈ walk, ∀ f ∈ e.files, ∃ r ∈ recs, r.filepath = pyJoin e.root f)) ∧
    (∀ subset walk, (MiniImageNet.index_subset subset walk).length =
      progress_total walk + not_png_total walk) := by
  constructor
  · intro subset walk recs h
    have hl := omniglot_index_subset_length h
    refine ⟨hl, fun hpos => by omega, ?_⟩
    intro e he f hf
    exact omniglot_index_subset_mem h he hf
  · exact mini_index_subset_length

/-- The index the Omniglot index builder produces on walk1 (which contains
the non-matching file notes.txt). -/
def recs1 : List ImageRecord :=
  (OmniglotDataset.index_subset "background".data walk1).toOption.getD []

/-- C8 witness: on walk1 the progress total is 1 (only a.png counted) but
the produced index holds 2 records, one of them for notes.txt. -/
theorem claim_C8_witness :
    recs1.length = progress_total walk1 + not_png_total walk1 ∧
    progress_total walk1 < recs1.length := by
  have h := claim_C8.1 "background".data walk1 recs1 (by decide)
  exact ⟨h.1, h.2.1 (by decide)⟩

/-- C9: categorical_accuracy equals the number of batch rows whose
first-maximal score index coincides with the ground-truth label, divided
by the batch size, and the result lies in [0, 1]. -/
theorem claim_C9 (y : List Nat) (y_pred : List (List ℚ))
    (hlen : y.length = y_pred.length) (h0 : 0 < y_pred.length) :
    categorical_accuracy y y_pred =
      (((List.range y_pred.length).countP
        (fun i => torch_argmax (y_pred.getD i []) == y.getD i 0)) : ℚ) /
        (y_pred.length : ℚ) ∧
    0 ≤ categorical_accuracy y y_pred ∧
    categorical_accuracy y y_pred ≤ 1 := by
  have hcount := countP_zip_eq_range y y_pred hlen
  have hle : ((y_pred.map torch_argmax).zip y).countP (fun p => p.1 == p.2)
      ≤ y_pred.length := by
    calc ((y_pred.map torch_argmax).zip y).countP (fun p => p.1 == p.2)
        ≤ ((y_pred.map torch_argmax).zip y).length := List.countP_le_length _
      _ = (y_pred.map torch_argmax).length ⊓ y.length := List.length_zip _ _
      _ ≤ y_pred.length := by
          rw [List.length_map]
          omega
  refine ⟨?_, ?_, ?_⟩
  · unfold categorical_accuracy
    rw [hcount]
  · unfold categorical_accuracy
    exact div_nonneg (Nat.cast_nonneg _) (Nat.cast_nonneg _)
  · unfold categorical_accuracy
    rw [div_le_one (by exact_mod_cast h0)]
    exact_mod_cast hle

/-- C9 witness: the theorem applied to the 2-row batch with score rows
[0, 2] and [3, 1] and labels [1, 0]; both argmax indices match. -/
theorem claim_C9_witness :
    categorical_accuracy [1, 0] [[0, 2], [3, 1]] =
      (((List.range ([[0, 2], [3, 1]] : List (List ℚ)).length).countP
        (fun i => torch_argmax (([[0, 2], [3, 1]] : List (List ℚ)).getD i []) ==
          ([1, 0] : List Nat).getD i 0)) : ℚ) /
        (([[0, 2], [3, 1]] : List (List ℚ)).length : ℚ) ∧
    0 ≤ categorical_accuracy [1, 0] [[0, 2], [3, 1]] ∧
    categorical_accuracy [1, 0] [[0, 2], [3, 1]] ≤ 1 :=
  claim_C9 [1, 0] [[0, 2], [3, 1]] (by decide) (by decide)

/-- C10: for a DummyDataset with positive n_classes, length() is
samples_per_class * n_classes and get(item) for EVERY integer item
(negative and past-the-end included) returns the array
[item] + [item % n_classes] * n_features (n_features + 1 entries, first
entry item) paired with the label item % n_classes, a value in
[0, n_classes). -/
theorem claim_C10 (d : DummyDataset) (h : 0 < d.n_classes) :
    DummyDataset.length d = d.samples_per_class * d.n_classes ∧
    ∀ item : Int,
      DummyDataset.getitem d item =
        .ok ((item : ℚ) ::
          List.replicate d.n_features ((((item % (d.n_classes : Int)) : Int) : ℚ)),
          (((item % (d.n_classes : Int)) : Int) : ℚ)) ∧
      ((item : ℚ) ::
        List.replicate d.n_features ((((item % (d.n_classes : Int)) : Int) : ℚ))).length
          = d.n_features + 1 ∧
      0 ≤ item % (d.n_classes : Int) ∧
      item % (d.n_classes : Int) < (d.n_classes : Int) := by
  refine ⟨rfl, fun item => ⟨?_, by simp, Int.emod_nonneg item (by omega),
    Int.emod_lt_of_pos item (by omega)⟩⟩
  unfold DummyDataset.getitem
  rw [if_neg (by omega)]

/-- C10 witness: the theorem applied to the default-sized DummyDataset at
the negative index -1, whose label is (-1) % 10 = 9. -/
theorem claim_C10_witness :
    DummyDataset.getitem ⟨10, 10, 1⟩ (-1) =
      .ok (((-1 : Int) : ℚ) ::
        List.replicate 1 (((((-1 : Int) % (10 : Int)) : Int) : ℚ)),
        ((((-1 : Int) % (10 : Int)) : Int) : ℚ)) ∧
    0 ≤ (-1 : Int) % (10 : Int) ∧
    (-1 : Int) % (10 : Int) < (10 : Int) := by
  obtain ⟨-, h2⟩ := claim_C10 ⟨10, 10, 1⟩ (by decide)
  obtain ⟨ha, -, hc, hd⟩ := h2 (-1)
  exact ⟨ha, hc, hd⟩
